import Mathlib

/-!
Verification of the cleaning-schedule and document-normalization layer of the
dhobighat backend (src/crud.py), shallowly embedded in Lean.

Modelling choices:
* Timestamps and durations are integers counting seconds (`Int`); Python's
  `datetime + timedelta(seconds=n)` becomes integer addition.
* A raw stored document (a schemaless Mongo document) is a `RawDoc`: every
  field that `crud.py` reads or writes is an `Option`, `none` meaning the key
  is absent.  The `_id` key is always present (assigned by the store).
* The collection is a `List RawDoc`; `find_one`, the filtered `find` with
  `skip`/`limit`, and `update_one` (with its `modified_count`) are modelled
  directly on that list.  Mongo's `update_one` reports `modified_count = 0`
  when the `$set` leaves the document bitwise unchanged, and a `$set` of a
  missing key adds the key (hence modifies).
* `datetime.utcnow()` is an explicit `now : Int` parameter threaded to the
  operations that call it.
* Exceptions: `bson.ObjectId(item_id)` raising on a malformed id is modelled
  by the `ObjectId.isValid` check (24 hex characters, as in bson); Pydantic's
  `ClothingItemResponse(**doc)` raising on a missing required field is
  modelled by `ClothingItemResponse.ofDoc` returning `none`; the blanket
  `except Exception: return None` handlers of the single-item operations
  become the corresponding `none` branches.
* Mongo's `$regex` with `$options: "i"` applied to a plain pattern is
  modelled as case-insensitive substring containment (`containsCI`); a query
  on a field that is absent from a document does not match the document.
-/

/-- A raw document as stored in the `clothing_items` collection.  Field names
follow the Mongo keys that `crud.py` reads or writes; `none` means the key is
absent from the document. -/
structure RawDoc where
  _id : String
  name : Option String := none
  clothingItemType : Option String := none
  clothing_item_type : Option String := none
  type : Option String := none
  image : Option String := none
  last_cleaned : Option Int := none
  lastCleaned : Option Int := none
  cleaning_interval_seconds : Option Int := none
  cleaningIntervalSeconds : Option Int := none
  next_cleaning_date : Option Int := none
  nextCleaningDate : Option Int := none
  is_archived : Option Bool := none
deriving Repr, DecidableEq

/-- The Pydantic response model `ClothingItemResponse` (models.py): all fields
required except `is_archived`, which defaults to `False`. -/
structure ClothingItemResponse where
  id : String
  name : String
  clothingItemType : String
  image : String
  last_cleaned : Int
  cleaning_interval_seconds : Int
  next_cleaning_date : Int
  is_archived : Bool
deriving Repr, DecidableEq

/-- Model of `bson.ObjectId(s)` succeeds exactly on 24-character hex strings; on
anything else it raises (caught by the operations' `except` blocks). -/
def ObjectId.isValid (s : String) : Bool :=
  s.length == 24 && s.toList.all fun c =>
    c.isDigit || (97 ≤ c.toNat && c.toNat ≤ 102) || (65 ≤ c.toNat && c.toNat ≤ 70)

/-- Whether `pat` occurs as a contiguous sublist of `s`. -/
def listInfix (pat : List Char) : List Char → Bool
  | [] => pat.isEmpty
  | c :: rest => pat.isPrefixOf (c :: rest) || listInfix pat rest

/-- ASCII lower-casing of a character. -/
def lowerChar (c : Char) : Char :=
  if 65 ≤ c.toNat && c.toNat ≤ 90 then Char.ofNat (c.toNat + 32) else c

/-- Case-insensitive substring containment (ASCII case-folding): the model of
Mongo `{"$regex": pat, "$options": "i"}` for a plain (regex-free) pattern. -/
def containsCI (pat s : String) : Bool :=
  listInfix (pat.toList.map lowerChar) (s.toList.map lowerChar)

/-- Model of `collection.find_one({"_id": id})`: first document with the given id. -/
def find_one : List RawDoc → String → Option RawDoc
  | [], _ => none
  | d :: rest, id => if d._id = id then some d else find_one rest id

/-- Model of `collection.update_one({"_id": id}, {"$set": ...})`: applies `f` (the
`$set`) to the first document with the given id, and returns the new
collection together with Mongo's `modified_count` (0 when no document matched
or when the `$set` left the document unchanged). -/
def update_one : List RawDoc → String → (RawDoc → RawDoc) → List RawDoc × Nat
  | [], _, _ => ([], 0)
  | d :: rest, id, f =>
    if d._id = id then
      (f d :: rest, if f d = d then 0 else 1)
    else
      (d :: (update_one rest id f).1, (update_one rest id f).2)

/-- Model of `collection.find(query).skip(skip).limit(limit)`: Mongo's `limit(0)`
means "no limit". -/
def find_docs (store : List RawDoc) (q : RawDoc → Bool) (skip limit : Nat) :
    List RawDoc :=
  let m := (store.filter q).drop skip
  if limit = 0 then m else m.take limit

/-- First block of `_normalize_document`: ensure the `clothingItemType` key
exists (fallbacks: `clothing_item_type`, then `type`, then `"unknown"`). -/
def normStepType (n : RawDoc) : RawDoc :=
  if n.clothingItemType.isSome then n
  else if n.clothing_item_type.isSome then
    { n with clothingItemType := n.clothing_item_type }
  else if n.type.isSome then { n with clothingItemType := n.type }
  else { n with clothingItemType := some "unknown" }

/-- Second block: ensure `last_cleaned` exists (fallback `lastCleaned`, then
the current time). -/
def normStepLast (now : Int) (n : RawDoc) : RawDoc :=
  if n.last_cleaned.isSome then n
  else if n.lastCleaned.isSome then { n with last_cleaned := n.lastCleaned }
  else { n with last_cleaned := some now }

/-- Third block: ensure `cleaning_interval_seconds` exists (fallback
`cleaningIntervalSeconds`, then 7 days). -/
def normStepInterval (n : RawDoc) : RawDoc :=
  if n.cleaning_interval_seconds.isSome then n
  else if n.cleaningIntervalSeconds.isSome then
    { n with cleaning_interval_seconds := n.cleaningIntervalSeconds }
  else { n with cleaning_interval_seconds := some (7 * 24 * 60 * 60) }

/-- Fourth block: ensure `next_cleaning_date` exists (fallback
`nextCleaningDate`, then recompute from `last_cleaned` and the interval,
which the two previous blocks have made present). -/
def normStepNext (n : RawDoc) : RawDoc :=
  if n.next_cleaning_date.isSome then n
  else if n.nextCleaningDate.isSome then
    { n with next_cleaning_date := n.nextCleaningDate }
  else
    { n with
      next_cleaning_date := some (n.last_cleaned.getD 0 + n.cleaning_interval_seconds.getD 0) }

/-- Fifth block: ensure `image` exists (default `""`). -/
def normStepImage (n : RawDoc) : RawDoc :=
  if n.image.isSome then n else { n with image := some "" }

/-- Sixth block: ensure `is_archived` exists (default `false`). -/
def normStepArchived (n : RawDoc) : RawDoc :=
  if n.is_archived.isSome then n else { n with is_archived := some false }

/-- Model of `ClothingItemCRUD._normalize_document` (crud.py): backfill missing or
renamed fields by running the six blocks of the Python function in order.
The `now` parameter stands for the `datetime.utcnow()` used when
`last_cleaned` is absent under both spellings. -/
def _normalize_document (now : Int) (doc : RawDoc) : RawDoc :=
  normStepArchived (normStepImage (normStepNext (normStepInterval
    (normStepLast now (normStepType doc)))))

/-- Model of `ClothingItemResponse(**doc)` (Pydantic validation): succeeds iff every
required field is present; `is_archived` defaults to `false`. -/
def ClothingItemResponse.ofDoc (d : RawDoc) : Option ClothingItemResponse :=
  match d.name, d.clothingItemType, d.image, d.last_cleaned,
      d.cleaning_interval_seconds, d.next_cleaning_date with
  | some n, some t, some img, some lc, some ci, some nc =>
    some ⟨d._id, n, t, img, lc, ci, nc, d.is_archived.getD false⟩
  | _, _, _, _, _, _ => none

/-- The `async for doc in cursor` body shared by every listing: normalize each
document and build a response; a Pydantic validation error aborts the whole
listing (there is no `try` around these loops). -/
def docs_to_responses (now : Int) :
    List RawDoc → Except String (List ClothingItemResponse)
  | [] => .ok []
  | d :: rest =>
    match ClothingItemResponse.ofDoc (_normalize_document now d) with
    | none => .error "validation error"
    | some r =>
      match docs_to_responses now rest with
      | .error e => .error e
      | .ok rs => .ok (r :: rs)

/-- The archived-exclusion clause `query["is_archived"] = {"$ne": True}`
added to every listing query unless `include_archived` is set. -/
def archFilter (include_archived : Bool) (d : RawDoc) : Bool :=
  include_archived || !(d.is_archived == some true)

/-- Model of `ClothingItemCRUD.get_clothing_item`. -/
def get_clothing_item (store : List RawDoc) (now : Int) (item_id : String) :
    Option ClothingItemResponse :=
  if ObjectId.isValid item_id then
    match find_one store item_id with
    | some doc => ClothingItemResponse.ofDoc (_normalize_document now doc)
    | none => none
  else none

/-- Model of `ClothingItemCRUD.get_all_clothing_items`. -/
def get_all_clothing_items (store : List RawDoc) (now : Int)
    (skip limit : Nat) (include_archived : Bool) :
    Except String (List ClothingItemResponse) :=
  docs_to_responses now (find_docs store (archFilter include_archived) skip limit)

/-- Model of `ClothingItemCRUD.get_clothing_items_by_name`: case-insensitive substring
match on `name`. -/
def get_clothing_items_by_name (store : List RawDoc) (now : Int) (name : String)
    (skip limit : Nat) (include_archived : Bool) :
    Except String (List ClothingItemResponse) :=
  docs_to_responses now (find_docs store
    (fun d => d.name.any (containsCI name ·) && archFilter include_archived d)
    skip limit)

/-- Model of `ClothingItemCRUD.get_clothing_items_by_type`: case-insensitive substring
match on the stored `clothingItemType` key. -/
def get_clothing_items_by_type (store : List RawDoc) (now : Int)
    (item_type : String) (skip limit : Nat) (include_archived : Bool) :
    Except String (List ClothingItemResponse) :=
  docs_to_responses now (find_docs store
    (fun d => d.clothingItemType.any (containsCI item_type ·) &&
      archFilter include_archived d)
    skip limit)

/-- Model of `ClothingItemCRUD.get_items_needing_cleaning`:
`next_cleaning_date <= now`. -/
def get_items_needing_cleaning (store : List RawDoc) (now : Int)
    (skip limit : Nat) (include_archived : Bool) :
    Except String (List ClothingItemResponse) :=
  docs_to_responses now (find_docs store
    (fun d => d.next_cleaning_date.any (fun t => decide (t ≤ now)) &&
      archFilter include_archived d)
    skip limit)

/-- Model of `ClothingItemCRUD.get_items_cleaned_recently`:
`last_cleaned >= now - days`. -/
def get_items_cleaned_recently (store : List RawDoc) (now : Int) (days : Int)
    (skip limit : Nat) (include_archived : Bool) :
    Except String (List ClothingItemResponse) :=
  docs_to_responses now (find_docs store
    (fun d => d.last_cleaned.any (fun t => decide (now - days * 24 * 60 * 60 ≤ t)) &&
      archFilter include_archived d)
    skip limit)

/-- Model of `ClothingItemCRUD.get_archived_clothing_items`: `is_archived == true`
only. -/
def get_archived_clothing_items (store : List RawDoc) (now : Int)
    (skip limit : Nat) : Except String (List ClothingItemResponse) :=
  docs_to_responses now (find_docs store (fun d => d.is_archived == some true) skip limit)

/-- The `$set` applied by the interval-update operations: write the new
interval and the recomputed `next_cleaning_date = last_cleaned + interval`. -/
def setInterval (v new_next : Int) (d : RawDoc) : RawDoc :=
  { d with cleaning_interval_seconds := some v, next_cleaning_date := some new_next }

/-- Model of `ClothingItemCRUD.update_item_cleaning_interval`: read the current
document, recompute `next_cleaning_date` from its `last_cleaned` and the new
interval, write both fields, and return the re-read record when the store
reports a modification.  A malformed id, a missing record, a missing
`last_cleaned` key (Python `KeyError`), or a failing response validation all
fall into the catch-all `except` and yield `none`. -/
def update_item_cleaning_interval (store : List RawDoc) (now : Int)
    (item_id : String) (new_interval_seconds : Int) :
    Option ClothingItemResponse × List RawDoc :=
  if ObjectId.isValid item_id then
    match find_one store item_id with
    | none => (none, store)
    | some current_item =>
      match current_item.last_cleaned with
      | none => (none, store)
      | some last_cleaned =>
        let new_next := last_cleaned + new_interval_seconds
        let res := update_one store item_id (setInterval new_interval_seconds new_next)
        if res.2 > 0 then
          match find_one res.1 item_id with
          | some updated_doc =>
            (ClothingItemResponse.ofDoc (_normalize_document now updated_doc), res.1)
          | none => (none, res.1)
        else (none, res.1)
  else (none, store)

/-- Model of `ClothingItemCRUD.archive_clothing_item`: `$set {is_archived: true}`,
return the re-read record only when the store reports a modification. -/
def archive_clothing_item (store : List RawDoc) (now : Int) (item_id : String) :
    Option ClothingItemResponse × List RawDoc :=
  if ObjectId.isValid item_id then
    let res := update_one store item_id (fun d => { d with is_archived := some true })
    if res.2 > 0 then
      match find_one res.1 item_id with
      | some updated_doc =>
        (ClothingItemResponse.ofDoc (_normalize_document now updated_doc), res.1)
      | none => (none, res.1)
    else (none, res.1)
  else (none, store)

/-- Model of `ClothingItemCRUD.unarchive_clothing_item`: `$set {is_archived: false}`,
return the re-read record only when the store reports a modification. -/
def unarchive_clothing_item (store : List RawDoc) (now : Int) (item_id : String) :
    Option ClothingItemResponse × List RawDoc :=
  if ObjectId.isValid item_id then
    let res := update_one store item_id (fun d => { d with is_archived := some false })
    if res.2 > 0 then
      match find_one res.1 item_id with
      | some updated_doc =>
        (ClothingItemResponse.ofDoc (_normalize_document now updated_doc), res.1)
      | none => (none, res.1)
    else (none, res.1)
  else (none, store)

/-- The per-document loop of `update_type_cleaning_interval`: for each
matching document (as read by the cursor), recompute its
`next_cleaning_date` from its own `last_cleaned` and update it; count the
documents the store reports as modified.  A document without a
`last_cleaned` key raises (`KeyError`), which the outer `except` re-raises
as a wrapped failure; updates already applied persist. -/
def bulk_update_loop (v : Int) :
    List RawDoc → Nat → List RawDoc → Except String Nat × List RawDoc
  | [], count, s => (.ok count, s)
  | doc :: rest, count, s =>
    match doc.last_cleaned with
    | none => (.error "Failed to update cleaning interval for type", s)
    | some lc =>
      let res := update_one s doc._id (setInterval v (lc + v))
      bulk_update_loop v rest (count + (if res.2 > 0 then 1 else 0)) res.1

/-- Model of `ClothingItemCRUD.update_type_cleaning_interval`: apply the interval
update to every document whose stored `clothingItemType` matches the given
substring case-insensitively (archived or not), returning the count of
documents the store actually modified. -/
def update_type_cleaning_interval (store : List RawDoc) (item_type : String)
    (new_interval_seconds : Int) :
    Except String (Nat × String × Int) × List RawDoc :=
  let docs := store.filter (fun d => d.clothingItemType.any (containsCI item_type ·))
  let res := bulk_update_loop new_interval_seconds docs 0 store
  (res.1.map (fun c => (c, item_type, new_interval_seconds)), res.2)

/-- Variant of `get_clothing_item` with the outcome of the store read made explicit:
`findResult` is what `collection.find_one` did — `.error e` models the store
raising (unreachable, timeout, ...), which the function's blanket
`except Exception: return None` converts into `none`. -/
def get_clothing_item_fallible (item_id : String)
    (findResult : Except String (Option RawDoc)) (now : Int) :
    Option ClothingItemResponse :=
  if ObjectId.isValid item_id then
    match findResult with
    | .error _ => none
    | .ok none => none
    | .ok (some doc) => ClothingItemResponse.ofDoc (_normalize_document now doc)
  else none

/-- Variant of `update_item_cleaning_interval` with the initial store read made
explicit, stopping at that read: a store failure there is swallowed by the
same blanket `except` and yields `none` (the remainder of the operation is
the pure part modelled above). -/
def update_item_fallible_read (item_id : String)
    (findResult : Except String (Option RawDoc)) : Option RawDoc :=
  if ObjectId.isValid item_id then
    match findResult with
    | .error _ => none
    | .ok r => r
  else none

/-- Variant of `update_item_cleaning_interval` continuing after a successful
read of `current_item`, with the two remaining store interactions made
explicit: `updateResult` is what `collection.update_one` did (`.ok m` is its
`modified_count`) and `readBack` is what the re-read `find_one` did.  A
missing `last_cleaned` key (Python `KeyError`), a store failure at either
interaction, a zero modified count, or a vanished record at the re-read all
fall into the same catch-all `except` or `return None` paths. -/
def update_item_cleaning_interval_fallible_write (item_id : String)
    (current_item : RawDoc) (updateResult : Except String Nat)
    (readBack : Except String (Option RawDoc)) (now : Int) :
    Option ClothingItemResponse :=
  if ObjectId.isValid item_id then
    match current_item.last_cleaned with
    | none => none
    | some _ =>
      match updateResult with
      | .error _ => none
      | .ok m =>
        if m > 0 then
          match readBack with
          | .error _ => none
          | .ok none => none
          | .ok (some updated_doc) =>
            ClothingItemResponse.ofDoc (_normalize_document now updated_doc)
        else none
  else none

/-- Variant of `archive_clothing_item` with its two store interactions made
explicit: `updateResult` is what the `$set {is_archived: true}`
`collection.update_one` did (`.ok m` is its `modified_count`, 0 when no
record matched or the record was already archived) and `readBack` is what
the re-read `find_one` did.  Every failure path ends in the blanket
`except Exception: return None`. -/
def archive_clothing_item_fallible (item_id : String)
    (updateResult : Except String Nat)
    (readBack : Except String (Option RawDoc)) (now : Int) :
    Option ClothingItemResponse :=
  if ObjectId.isValid item_id then
    match updateResult with
    | .error _ => none
    | .ok m =>
      if m > 0 then
        match readBack with
        | .error _ => none
        | .ok none => none
        | .ok (some updated_doc) =>
          ClothingItemResponse.ofDoc (_normalize_document now updated_doc)
      else none
  else none

/-- Variant of `unarchive_clothing_item` with its two store interactions made
explicit, exactly as for `archive_clothing_item_fallible` but for the
`$set {is_archived: false}` write (the Python bodies differ only in that
constant). -/
def unarchive_clothing_item_fallible (item_id : String)
    (updateResult : Except String Nat)
    (readBack : Except String (Option RawDoc)) (now : Int) :
    Option ClothingItemResponse :=
  if ObjectId.isValid item_id then
    match updateResult with
    | .error _ => none
    | .ok m =>
      if m > 0 then
        match readBack with
        | .error _ => none
        | .ok none => none
        | .ok (some updated_doc) =>
          ClothingItemResponse.ofDoc (_normalize_document now updated_doc)
      else none
  else none

/-- A fully-populated stored record: the spec's "Blue T-Shirt" created at
time `T = 0` with a 7-day interval. -/
def blueShirt : RawDoc :=
  { _id := "aaaaaaaaaaaaaaaaaaaaaaaa", name := some "Blue T-Shirt",
    clothingItemType := some "shirt", image := some "",
    last_cleaned := some 0, cleaning_interval_seconds := some 604800,
    next_cleaning_date := some 604800, is_archived := some false }

/-- A legacy record that lacks the `is_archived` key entirely. -/
def legacySock : RawDoc :=
  { _id := "bbbbbbbbbbbbbbbbbbbbbbbb", name := some "Gray Sock",
    clothingItemType := some "sock", image := some "",
    last_cleaned := some 0, cleaning_interval_seconds := some 604800,
    next_cleaning_date := some 604800, is_archived := none }

/-- An archived record of type "shirt". -/
def archivedShirt : RawDoc :=
  { _id := "cccccccccccccccccccccccc", name := some "Old Shirt",
    clothingItemType := some "shirt", image := some "",
    last_cleaned := some 100, cleaning_interval_seconds := some 604800,
    next_cleaning_date := some 604900, is_archived := some true }

/-! ### Normalization lemmas -/

/-- Step lemma: `normStepType` only writes `clothingItemType`, following the precedence
`clothingItemType`, `clothing_item_type`, `type`, `"unknown"`. -/
theorem normStepType_eq (n : RawDoc) :
    normStepType n = { n with
      clothingItemType :=
        some (match n.clothingItemType, n.clothing_item_type, n.type with
        | some t, _, _ => t
        | none, some t, _ => t
        | none, none, some t => t
        | none, none, none => "unknown") } := by
  rcases n with ⟨i, nm, ct, cit, ty, im, lc, lC, ci, ciC, nc, ncC, ar⟩
  cases ct <;> cases cit <;> cases ty <;> simp [normStepType]

/-- Step lemma: `normStepLast` only writes `last_cleaned`, following the precedence
`last_cleaned`, `lastCleaned`, current time. -/
theorem normStepLast_eq (now : Int) (n : RawDoc) :
    normStepLast now n = { n with
      last_cleaned :=
        some (match n.last_cleaned, n.lastCleaned with
        | some t, _ => t
        | none, some t => t
        | none, none => now) } := by
  rcases n with ⟨i, nm, ct, cit, ty, im, lc, lC, ci, ciC, nc, ncC, ar⟩
  cases lc <;> cases lC <;> simp [normStepLast]

/-- Step lemma: `normStepInterval` only writes `cleaning_interval_seconds`, following the
precedence `cleaning_interval_seconds`, `cleaningIntervalSeconds`, 7 days. -/
theorem normStepInterval_eq (n : RawDoc) :
    normStepInterval n = { n with
      cleaning_interval_seconds :=
        some (match n.cleaning_interval_seconds, n.cleaningIntervalSeconds with
        | some t, _ => t
        | none, some t => t
        | none, none => 7 * 24 * 60 * 60) } := by
  rcases n with ⟨i, nm, ct, cit, ty, im, lc, lC, ci, ciC, nc, ncC, ar⟩
  cases ci <;> cases ciC <;> simp [normStepInterval]

/-- Step lemma: `normStepNext` only writes `next_cleaning_date`, following the precedence
`next_cleaning_date`, `nextCleaningDate`, recomputation. -/
theorem normStepNext_eq (n : RawDoc) :
    normStepNext n = { n with
      next_cleaning_date :=
        some (match n.next_cleaning_date, n.nextCleaningDate with
        | some t, _ => t
        | none, some t => t
        | none, none => n.last_cleaned.getD 0 + n.cleaning_interval_seconds.getD 0) } := by
  rcases n with ⟨i, nm, ct, cit, ty, im, lc, lC, ci, ciC, nc, ncC, ar⟩
  cases nc <;> cases ncC <;> simp [normStepNext]

/-- Step lemma: `normStepImage` only writes `image`, defaulting it to `""`. -/
theorem normStepImage_eq (n : RawDoc) :
    normStepImage n = { n with image := some (n.image.getD "") } := by
  rcases n with ⟨i, nm, ct, cit, ty, im, lc, lC, ci, ciC, nc, ncC, ar⟩
  cases im <;> simp [normStepImage]

/-- Step lemma: `normStepArchived` only writes `is_archived`, defaulting it to `false`. -/
theorem normStepArchived_eq (n : RawDoc) :
    normStepArchived n = { n with is_archived := some (n.is_archived.getD false) } := by
  rcases n with ⟨i, nm, ct, cit, ty, im, lc, lC, ci, ciC, nc, ncC, ar⟩
  cases ar <;> simp [normStepArchived]

/-- After normalization every canonical field is present. -/
theorem normalize_complete (now : Int) (d : RawDoc) :
    (_normalize_document now d).clothingItemType.isSome ∧
    (_normalize_document now d).last_cleaned.isSome ∧
    (_normalize_document now d).cleaning_interval_seconds.isSome ∧
    (_normalize_document now d).next_cleaning_date.isSome ∧
    (_normalize_document now d).image.isSome ∧
    (_normalize_document now d).is_archived.isSome := by
  simp [_normalize_document, normStepType_eq, normStepLast_eq, normStepInterval_eq,
    normStepNext_eq, normStepImage_eq, normStepArchived_eq]

/-- Normalization does not touch a document whose canonical fields are all
present. -/
theorem normalize_eq_self_of_complete (now : Int) (d : RawDoc)
    (h1 : d.clothingItemType.isSome) (h2 : d.last_cleaned.isSome)
    (h3 : d.cleaning_interval_seconds.isSome) (h4 : d.next_cleaning_date.isSome)
    (h5 : d.image.isSome) (h6 : d.is_archived.isSome) :
    _normalize_document now d = d := by
  rcases d with ⟨i, nm, ct, cit, ty, im, lc, lC, ci, ciC, nc, ncC, ar⟩
  simp only [Option.isSome] at h1 h2 h3 h4 h5 h6
  cases ct <;> cases lc <;> cases ci <;> cases nc <;> cases im <;> cases ar <;>
    simp_all [_normalize_document, normStepType_eq, normStepLast_eq,
      normStepInterval_eq, normStepNext_eq, normStepImage_eq, normStepArchived_eq]

/-- C3: normalization is idempotent — normalizing an already-normalized
record returns it unchanged, even if the second normalization happens at a
different current time. -/
theorem C3_normalize_idempotent (now now2 : Int) (d : RawDoc) :
    _normalize_document now2 (_normalize_document now d) = _normalize_document now d := by
  obtain ⟨h1, h2, h3, h4, h5, h6⟩ := normalize_complete now d
  exact normalize_eq_self_of_complete now2 _ h1 h2 h3 h4 h5 h6

/-- C2: normalization fills each canonical field by the stated precedence —
`clothingItemType` from the field, else `clothing_item_type`, else `type`,
else `"unknown"`; `cleaning_interval_seconds` from the field, else
`cleaningIntervalSeconds`, else 604800; `next_cleaning_date` from the field,
else `nextCleaningDate`, else recomputed as `last_cleaned +
cleaning_interval_seconds` using the possibly just-defaulted values;
`image` defaults to `""` and `is_archived` to `false` when absent.  In
particular a record missing both `next_cleaning_date` and
`cleaning_interval_seconds` (under either spelling) with `last_cleaned = T`
normalizes to interval 604800 and `next_cleaning_date = T + 604800`. -/
theorem C2_normalize_field_precedence (now T : Int) (d : RawDoc) :
    ((_normalize_document now d).clothingItemType =
      some (match d.clothingItemType, d.clothing_item_type, d.type with
        | some t, _, _ => t
        | none, some t, _ => t
        | none, none, some t => t
        | none, none, none => "unknown")) ∧
    ((_normalize_document now d).cleaning_interval_seconds =
      some (match d.cleaning_interval_seconds, d.cleaningIntervalSeconds with
        | some t, _ => t
        | none, some t => t
        | none, none => 604800)) ∧
    (∀ t, d.next_cleaning_date = some t →
      (_normalize_document now d).next_cleaning_date = some t) ∧
    (d.next_cleaning_date = none → ∀ t, d.nextCleaningDate = some t →
      (_normalize_document now d).next_cleaning_date = some t) ∧
    (d.next_cleaning_date = none → d.nextCleaningDate = none →
      (_normalize_document now d).next_cleaning_date =
        some ((_normalize_document now d).last_cleaned.getD 0 +
          (_normalize_document now d).cleaning_interval_seconds.getD 0)) ∧
    (d.image = none → (_normalize_document now d).image = some "") ∧
    (d.is_archived = none → (_normalize_document now d).is_archived = some false) ∧
    (d.cleaning_interval_seconds = none → d.cleaningIntervalSeconds = none →
      d.next_cleaning_date = none → d.nextCleaningDate = none →
      d.last_cleaned = some T →
      (_normalize_document now d).cleaning_interval_seconds = some 604800 ∧
      (_normalize_document now d).next_cleaning_date = some (T + 604800)) := by
  refine ⟨?_, ?_, ?_, ?_, ?_, ?_, ?_, ?_⟩
  · simp [_normalize_document, normStepType_eq, normStepLast_eq,
      normStepInterval_eq, normStepNext_eq, normStepImage_eq, normStepArchived_eq]
  · rcases hci : d.cleaning_interval_seconds with _ | t <;>
      rcases hciC : d.cleaningIntervalSeconds with _ | t' <;>
      simp [_normalize_document, normStepType_eq, normStepLast_eq,
        normStepInterval_eq, normStepNext_eq, normStepImage_eq, normStepArchived_eq,
        hci, hciC]
  · intro t ht
    simp [_normalize_document, normStepType_eq, normStepLast_eq,
      normStepInterval_eq, normStepNext_eq, normStepImage_eq, normStepArchived_eq, ht]
  · intro h t ht
    simp [_normalize_document, normStepType_eq, normStepLast_eq,
      normStepInterval_eq, normStepNext_eq, normStepImage_eq, normStepArchived_eq, h, ht]
  · intro h1 h2
    simp [_normalize_document, normStepType_eq, normStepLast_eq,
      normStepInterval_eq, normStepNext_eq, normStepImage_eq, normStepArchived_eq, h1, h2]
  · intro h
    simp [_normalize_document, normStepType_eq, normStepLast_eq,
      normStepInterval_eq, normStepNext_eq, normStepImage_eq, normStepArchived_eq, h]
  · intro h
    simp [_normalize_document, normStepType_eq, normStepLast_eq,
      normStepInterval_eq, normStepNext_eq, normStepImage_eq, normStepArchived_eq, h]
  · intro h1 h2 h3 h4 h5
    simp [_normalize_document, normStepType_eq, normStepLast_eq,
      normStepInterval_eq, normStepNext_eq, normStepImage_eq, normStepArchived_eq,
      h1, h2, h3, h4, h5]

/-- Witness for C2 at concrete records: a record with only alternate keys, a
record with nothing but an id, and the scenario record with `last_cleaned =
5` and no interval/next keys under either spelling. -/
theorem C2_normalize_field_precedence_witness :
    ((_normalize_document 0 { _id := "a", clothing_item_type := some "pants" }).clothingItemType
      = some "pants") ∧
    ((_normalize_document 0 { _id := "a" }).clothingItemType = some "unknown") ∧
    ((_normalize_document 0 { _id := "a", nextCleaningDate := some 11 }).next_cleaning_date
      = some 11) ∧
    ((_normalize_document 0 { _id := "a", image := none }).image = some "") ∧
    ((_normalize_document 0 { _id := "a" }).is_archived = some false) ∧
    ((_normalize_document 0 { _id := "a", last_cleaned := some 5 }).cleaning_interval_seconds
      = some 604800) ∧
    ((_normalize_document 0 { _id := "a", last_cleaned := some 5 }).next_cleaning_date
      = some 604805) := by
  refine ⟨?_, ?_, ?_, ?_, ?_, ?_, ?_⟩
  · exact (C2_normalize_field_precedence 0 0 { _id := "a", clothing_item_type := some "pants" }).1
  · exact (C2_normalize_field_precedence 0 0 { _id := "a" }).1
  · exact (C2_normalize_field_precedence 0 0
      { _id := "a", nextCleaningDate := some 11 }).2.2.2.1 rfl 11 rfl
  · exact (C2_normalize_field_precedence 0 0 { _id := "a", image := none }).2.2.2.2.2.1 rfl
  · exact (C2_normalize_field_precedence 0 0 { _id := "a" }).2.2.2.2.2.2.1 rfl
  · exact ((C2_normalize_field_precedence 0 5
      { _id := "a", last_cleaned := some 5 }).2.2.2.2.2.2.2 rfl rfl rfl rfl rfl).1
  · have h := ((C2_normalize_field_precedence 0 5
      { _id := "a", last_cleaned := some 5 }).2.2.2.2.2.2.2 rfl rfl rfl rfl rfl).2
    simpa using h

/-! ### Store lemmas -/

/-- Lemma: `update_one` leaves the collection untouched and reports zero modified
when no document matches the id. -/
theorem update_one_of_find_none (s : List RawDoc) (id : String)
    (f : RawDoc → RawDoc) (h : find_one s id = none) :
    update_one s id f = (s, 0) := by
  induction s with
  | nil => simp [update_one]
  | cons d rest ih =>
    by_cases hd : d._id = id
    · simp [find_one, hd] at h
    · simp [find_one, hd] at h
      simp [update_one, hd, ih h]

/-- After `update_one`, the targeted document reads back as `f` of its old
value (provided `f` does not change the id). -/
theorem update_one_find (s : List RawDoc) (id : String) (f : RawDoc → RawDoc)
    (cur : RawDoc) (h : find_one s id = some cur) (hf : (f cur)._id = cur._id) :
    find_one (update_one s id f).1 id = some (f cur) := by
  induction s with
  | nil => simp [find_one] at h
  | cons d rest ih =>
    by_cases hd : d._id = id
    · simp [find_one, hd] at h
      subst h
      simp [update_one, hd, find_one, hf.trans hd]
    · simp [find_one, hd] at h ⊢
      simp [update_one, hd, find_one, ih h]

/-- Lemma: `update_one` reports `modified_count` 1 exactly when the `$set` changes the
matched document, 0 when it is a no-op write. -/
theorem update_one_count (s : List RawDoc) (id : String) (f : RawDoc → RawDoc)
    (cur : RawDoc) (h : find_one s id = some cur) :
    (update_one s id f).2 = if f cur = cur then 0 else 1 := by
  induction s with
  | nil => simp [find_one] at h
  | cons d rest ih =>
    by_cases hd : d._id = id
    · simp [find_one, hd] at h
      subst h
      simp [update_one, hd]
    · simp [find_one, hd] at h
      simp [update_one, hd, ih h]

/-- Lemma: `update_one` does not affect documents with a different id. -/
theorem update_one_find_other (s : List RawDoc) (id : String)
    (f : RawDoc → RawDoc) (hf : ∀ x, (f x)._id = x._id) (j : String)
    (hj : j ≠ id) : find_one (update_one s id f).1 j = find_one s j := by
  induction s with
  | nil => simp [update_one]
  | cons d rest ih =>
    by_cases hd : d._id = id
    · have h1 : (f d)._id ≠ j := by rw [hf d, hd]; exact Ne.symm hj
      have h2 : d._id ≠ j := by rw [hd]; exact Ne.symm hj
      simp [update_one, hd, find_one, h1, h2, Ne.symm hj]
    · simp [update_one, hd, find_one, ih]

/-- In a collection with pairwise-distinct ids, looking up the id of a member
document returns that document. -/
theorem find_one_of_mem (s : List RawDoc)
    (h : s.Pairwise (fun a b => a._id ≠ b._id)) (d : RawDoc) (hd : d ∈ s) :
    find_one s d._id = some d := by
  induction s with
  | nil => simp at hd
  | cons a rest ih =>
    rcases List.mem_cons.mp hd with rfl | hmem
    · simp [find_one]
    · have hne : a._id ≠ d._id := (List.pairwise_cons.mp h).1 d hmem
      simp [find_one, hne, ih (List.pairwise_cons.mp h).2 hmem]

/-- The collection state after `update_item_cleaning_interval` reaches the
write: it is the `update_one` write, whatever the returned value is. -/
theorem update_item_store_eq (store : List RawDoc) (now : Int)
    (item_id : String) (v : Int) (current : RawDoc) (lc : Int)
    (hvalid : ObjectId.isValid item_id = true)
    (hf : find_one store item_id = some current)
    (hlc : current.last_cleaned = some lc) :
    (update_item_cleaning_interval store now item_id v).2 =
      (update_one store item_id (setInterval v (lc + v))).1 := by
  simp only [update_item_cleaning_interval, hvalid, if_true, hf, hlc]
  split
  · split <;> rfl
  · rfl

/-- C1: whenever `update_item_cleaning_interval(id, v)` succeeds (returns a
record), the stored record afterwards has `next_cleaning_date = last_cleaned
+ v` where `last_cleaned` is exactly the value the record held before the
call — the recomputation never uses the current time. -/
theorem C1_update_interval_recomputes_from_last_cleaned (store : List RawDoc)
    (now : Int) (item_id : String) (v : Int) (r : ClothingItemResponse)
    (h : (update_item_cleaning_interval store now item_id v).1 = some r) :
    ∃ doc lc, find_one store item_id = some doc ∧ doc.last_cleaned = some lc ∧
      ∃ doc2,
        find_one (update_item_cleaning_interval store now item_id v).2 item_id = some doc2 ∧
        doc2.last_cleaned = some lc ∧
        doc2.cleaning_interval_seconds = some v ∧
        doc2.next_cleaning_date = some (lc + v) := by
  by_cases hvalid : ObjectId.isValid item_id
  · rcases hf2 : find_one store item_id with _ | current
    · rw [update_item_cleaning_interval] at h
      simp [hvalid, hf2] at h
    · rcases hlc : current.last_cleaned with _ | lc
      · rw [update_item_cleaning_interval] at h
        simp [hvalid, hf2, hlc] at h
      · refine ⟨current, lc, rfl, hlc, setInterval v (lc + v) current, ?_, ?_, rfl, rfl⟩
        · rw [update_item_store_eq store now item_id v current lc hvalid hf2 hlc]
          exact update_one_find store item_id _ current hf2 rfl
        · simpa [setInterval] using hlc
  · rw [update_item_cleaning_interval] at h
    simp [hvalid] at h

/-- Witness for C1: updating the Blue T-Shirt's interval from 604800 to
86400 succeeds, and the stored record afterwards holds `last_cleaned = 0`
unchanged with `next_cleaning_date = 0 + 86400`. -/
theorem C1_update_interval_recomputes_from_last_cleaned_witness :
    ∃ doc lc, find_one [blueShirt] "aaaaaaaaaaaaaaaaaaaaaaaa" = some doc ∧
      doc.last_cleaned = some lc ∧
      ∃ doc2,
        find_one (update_item_cleaning_interval [blueShirt] 999
          "aaaaaaaaaaaaaaaaaaaaaaaa" 86400).2 "aaaaaaaaaaaaaaaaaaaaaaaa" = some doc2 ∧
        doc2.last_cleaned = some lc ∧
        doc2.cleaning_interval_seconds = some 86400 ∧
        doc2.next_cleaning_date = some (lc + 86400) :=
  C1_update_interval_recomputes_from_last_cleaned [blueShirt] 999
    "aaaaaaaaaaaaaaaaaaaaaaaa" 86400
    ⟨"aaaaaaaaaaaaaaaaaaaaaaaa", "Blue T-Shirt", "shirt", "", 0, 86400, 86400, false⟩
    (by decide)

/-- The collection state after `archive_clothing_item` on a valid id is the
`$set {is_archived: true}` write, whatever the returned value is. -/
theorem archive_store_eq (store : List RawDoc) (now : Int) (item_id : String)
    (hvalid : ObjectId.isValid item_id = true) :
    (archive_clothing_item store now item_id).2 =
      (update_one store item_id (fun d => { d with is_archived := some true })).1 := by
  simp only [archive_clothing_item, hvalid, if_true]
  split
  · split <;> rfl
  · rfl

/-- The collection state after `unarchive_clothing_item` on a valid id is the
`$set {is_archived: false}` write, whatever the returned value is. -/
theorem unarchive_store_eq (store : List RawDoc) (now : Int) (item_id : String)
    (hvalid : ObjectId.isValid item_id = true) :
    (unarchive_clothing_item store now item_id).2 =
      (update_one store item_id (fun d => { d with is_archived := some false })).1 := by
  simp only [unarchive_clothing_item, hvalid, if_true]
  split
  · split <;> rfl
  · rfl

/-- C8: archive and unarchive modify only `is_archived` — for an existing
item, every other stored field (name, type, image, last_cleaned, interval,
next_cleaning_date) reads back unchanged after the call, and in particular
no schedule recomputation takes place. -/
theorem C8_archive_unarchive_only_touch_is_archived (store : List RawDoc)
    (now : Int) (item_id : String) (doc : RawDoc)
    (hvalid : ObjectId.isValid item_id = true)
    (hf : find_one store item_id = some doc) :
    (∃ da, find_one (archive_clothing_item store now item_id).2 item_id = some da ∧
      da.name = doc.name ∧ da.clothingItemType = doc.clothingItemType ∧
      da.image = doc.image ∧ da.last_cleaned = doc.last_cleaned ∧
      da.cleaning_interval_seconds = doc.cleaning_interval_seconds ∧
      da.next_cleaning_date = doc.next_cleaning_date ∧
      da.is_archived = some true) ∧
    (∃ du, find_one (unarchive_clothing_item store now item_id).2 item_id = some du ∧
      du.name = doc.name ∧ du.clothingItemType = doc.clothingItemType ∧
      du.image = doc.image ∧ du.last_cleaned = doc.last_cleaned ∧
      du.cleaning_interval_seconds = doc.cleaning_interval_seconds ∧
      du.next_cleaning_date = doc.next_cleaning_date ∧
      du.is_archived = some false) := by
  constructor
  · refine ⟨{ doc with is_archived := some true }, ?_, rfl, rfl, rfl, rfl, rfl, rfl, rfl⟩
    rw [archive_store_eq store now item_id hvalid]
    exact update_one_find store item_id _ doc hf rfl
  · refine ⟨{ doc with is_archived := some false }, ?_, rfl, rfl, rfl, rfl, rfl, rfl, rfl⟩
    rw [unarchive_store_eq store now item_id hvalid]
    exact update_one_find store item_id _ doc hf rfl

/-- Witness for C8 on the concrete Blue T-Shirt record. -/
theorem C8_archive_unarchive_only_touch_is_archived_witness :
    (∃ da, find_one (archive_clothing_item [blueShirt] 7 "aaaaaaaaaaaaaaaaaaaaaaaa").2
        "aaaaaaaaaaaaaaaaaaaaaaaa" = some da ∧
      da.name = blueShirt.name ∧ da.clothingItemType = blueShirt.clothingItemType ∧
      da.image = blueShirt.image ∧ da.last_cleaned = blueShirt.last_cleaned ∧
      da.cleaning_interval_seconds = blueShirt.cleaning_interval_seconds ∧
      da.next_cleaning_date = blueShirt.next_cleaning_date ∧
      da.is_archived = some true) ∧
    (∃ du, find_one (unarchive_clothing_item [blueShirt] 7 "aaaaaaaaaaaaaaaaaaaaaaaa").2
        "aaaaaaaaaaaaaaaaaaaaaaaa" = some du ∧
      du.name = blueShirt.name ∧ du.clothingItemType = blueShirt.clothingItemType ∧
      du.image = blueShirt.image ∧ du.last_cleaned = blueShirt.last_cleaned ∧
      du.cleaning_interval_seconds = blueShirt.cleaning_interval_seconds ∧
      du.next_cleaning_date = blueShirt.next_cleaning_date ∧
      du.is_archived = some false) :=
  C8_archive_unarchive_only_touch_is_archived [blueShirt] 7
    "aaaaaaaaaaaaaaaaaaaaaaaa" blueShirt (by decide) (by decide)

/-- A `$set {is_archived: b}` is a no-op on a document already holding
exactly `is_archived = b`. -/
theorem set_archived_eq_self (doc : RawDoc) (b : Bool)
    (h : doc.is_archived = some b) : { doc with is_archived := some b } = doc := by
  rcases doc with ⟨i, nm, ct, cit, ty, im, lc, lC, ci, ciC, nc, ncC, ar⟩
  simp_all

/-- The interval `$set` is a no-op on a document already holding exactly the
target interval and the recomputed next date. -/
theorem setInterval_eq_self (doc : RawDoc) (v nn : Int)
    (hci : doc.cleaning_interval_seconds = some v)
    (hnc : doc.next_cleaning_date = some nn) :
    setInterval v nn doc = doc := by
  rcases doc with ⟨i, nm, ct, cit, ty, im, lc, lC, ci, ciC, nc, ncC, ar⟩
  simp_all [setInterval]

/-- Counterexample to C9 as stated: `legacySock` is a non-archived item (its
`is_archived` key is absent, which every read and listing treats as `false`),
yet `unarchive` on it does NOT return the not-found outcome — the `$set
{is_archived: false}` adds the missing key, the store reports one modified
document, and the record is returned. -/
theorem C9_unarchive_nonarchived_returns_record_cex :
    (unarchive_clothing_item [legacySock] 0 "bbbbbbbbbbbbbbbbbbbbbbbb").1.isSome = true ∧
    (_normalize_document 0 legacySock).is_archived = some false := by decide

/-- C9 (amended): when a single-item write modifies nothing, the operation
reports not-found even though the record exists — archive on an item whose
stored `is_archived` is literally `true`, unarchive on an item whose stored
`is_archived` is literally `false`, and update-interval(v) on an item already
holding interval `v` together with the recomputed next date, all return the
absent result.  (An item merely *lacking* the `is_archived` key is modified
by archive/unarchive, because the write adds the key, so those calls return
the record.) -/
theorem C9_noop_write_returns_not_found (store : List RawDoc) (now : Int)
    (item_id : String) (doc : RawDoc) (v lc : Int) :
    (find_one store item_id = some doc → doc.is_archived = some true →
      (archive_clothing_item store now item_id).1 = none) ∧
    (find_one store item_id = some doc → doc.is_archived = some false →
      (unarchive_clothing_item store now item_id).1 = none) ∧
    (find_one store item_id = some doc → doc.last_cleaned = some lc →
      doc.cleaning_interval_seconds = some v →
      doc.next_cleaning_date = some (lc + v) →
      (update_item_cleaning_interval store now item_id v).1 = none) := by
  refine ⟨?_, ?_, ?_⟩
  · intro hf harch
    by_cases hvalid : ObjectId.isValid item_id
    · have hcnt : (update_one store item_id
          (fun d => { d with is_archived := some true })).2 = 0 := by
        rw [update_one_count store item_id _ doc hf]
        simp [set_archived_eq_self doc true harch]
      simp [archive_clothing_item, hvalid, hcnt]
    · simp [archive_clothing_item, hvalid]
  · intro hf harch
    by_cases hvalid : ObjectId.isValid item_id
    · have hcnt : (update_one store item_id
          (fun d => { d with is_archived := some false })).2 = 0 := by
        rw [update_one_count store item_id _ doc hf]
        simp [set_archived_eq_self doc false harch]
      simp [unarchive_clothing_item, hvalid, hcnt]
    · simp [unarchive_clothing_item, hvalid]
  · intro hf hlc hci hnc
    by_cases hvalid : ObjectId.isValid item_id
    · have hcnt : (update_one store item_id (setInterval v (lc + v))).2 = 0 := by
        rw [update_one_count store item_id _ doc hf]
        simp [setInterval_eq_self doc v (lc + v) hci hnc]
      simp [update_item_cleaning_interval, hvalid, hf, hlc, hcnt]
    · simp [update_item_cleaning_interval, hvalid]

/-- Witness for the amended C9 at concrete records: archiving an archived
shirt, unarchiving the (explicitly non-archived) Blue T-Shirt, and
re-applying the Blue T-Shirt's own interval all report not-found. -/
theorem C9_noop_write_returns_not_found_witness :
    ((archive_clothing_item [archivedShirt] 0 "cccccccccccccccccccccccc").1 = none) ∧
    ((unarchive_clothing_item [blueShirt] 0 "aaaaaaaaaaaaaaaaaaaaaaaa").1 = none) ∧
    ((update_item_cleaning_interval [blueShirt] 0 "aaaaaaaaaaaaaaaaaaaaaaaa" 604800).1
      = none) := by
  refine ⟨?_, ?_, ?_⟩
  · exact (C9_noop_write_returns_not_found [archivedShirt] 0
      "cccccccccccccccccccccccc" archivedShirt 0 0).1 (by decide) (by decide)
  · exact (C9_noop_write_returns_not_found [blueShirt] 0
      "aaaaaaaaaaaaaaaaaaaaaaaa" blueShirt 0 0).2.1 (by decide) (by decide)
  · exact (C9_noop_write_returns_not_found [blueShirt] 0
      "aaaaaaaaaaaaaaaaaaaaaaaa" blueShirt 604800 0).2.2 (by decide) (by decide)
      (by decide) (by decide)

/-! ### Listing lemmas -/

/-- Every response in a successful listing comes from a listed document. -/
theorem docs_to_responses_ok_mem (now : Int) (docs : List RawDoc)
    (items : List ClothingItemResponse)
    (h : docs_to_responses now docs = .ok items) (r : ClothingItemResponse)
    (hr : r ∈ items) :
    ∃ d ∈ docs, ClothingItemResponse.ofDoc (_normalize_document now d) = some r := by
  induction docs generalizing items with
  | nil =>
    rw [docs_to_responses] at h
    cases h
    simp at hr
  | cons d rest ih =>
    rw [docs_to_responses] at h
    rcases hn : ClothingItemResponse.ofDoc (_normalize_document now d) with _ | r0 <;>
      rw [hn] at h
    · cases h
    · rcases hrest : docs_to_responses now rest with e | rs <;> rw [hrest] at h
      · cases h
      · cases h
        rcases List.mem_cons.mp hr with rfl | hmem
        · exact ⟨d, List.mem_cons_self d rest, hn⟩
        · obtain ⟨d2, hd2, hofd2⟩ := ih rs hrest hmem
          exact ⟨d2, List.mem_cons_of_mem d hd2, hofd2⟩

/-- Documents produced by a filtered `find` satisfy the query. -/
theorem find_docs_mem_filter (store : List RawDoc) (q : RawDoc → Bool)
    (skip limit : Nat) (d : RawDoc) (h : d ∈ find_docs store q skip limit) :
    d ∈ store ∧ q d = true := by
  have hmem : d ∈ store.filter q := by
    unfold find_docs at h
    split at h
    · exact List.mem_of_mem_drop h
    · exact List.mem_of_mem_drop (List.mem_of_mem_take h)
  exact ⟨List.mem_of_mem_filter hmem, List.of_mem_filter hmem⟩

/-- A successful Pydantic construction pins down every response field in
terms of the document. -/
theorem ofDoc_fields (d : RawDoc) (r : ClothingItemResponse)
    (h : ClothingItemResponse.ofDoc d = some r) :
    d.name = some r.name ∧ d.clothingItemType = some r.clothingItemType ∧
    d.image = some r.image ∧ d.last_cleaned = some r.last_cleaned ∧
    d.cleaning_interval_seconds = some r.cleaning_interval_seconds ∧
    d.next_cleaning_date = some r.next_cleaning_date ∧
    r.is_archived = d.is_archived.getD false ∧ r.id = d._id := by
  unfold ClothingItemResponse.ofDoc at h
  split at h
  · cases h
    simp_all
  · cases h

/-- Lemma: `is_archived` after normalization is the stored value, defaulted to
`false`. -/
theorem normalize_is_archived (now : Int) (d : RawDoc) :
    (_normalize_document now d).is_archived = some (d.is_archived.getD false) := by
  simp [_normalize_document, normStepType_eq, normStepLast_eq, normStepInterval_eq,
    normStepNext_eq, normStepImage_eq, normStepArchived_eq]

/-- A stored `next_cleaning_date` survives normalization unchanged. -/
theorem normalize_next_of_some (now : Int) (d : RawDoc) (t : Int)
    (h : d.next_cleaning_date = some t) :
    (_normalize_document now d).next_cleaning_date = some t := by
  simp [_normalize_document, normStepType_eq, normStepLast_eq, normStepInterval_eq,
    normStepNext_eq, normStepImage_eq, normStepArchived_eq, h]

/-- Archived-exclusion transfer: if the query implies the stored
`is_archived` is not `true`, every returned response has `is_archived =
false`. -/
theorem listing_not_archived (now : Int) (store : List RawDoc)
    (q : RawDoc → Bool) (skip limit : Nat) (items : List ClothingItemResponse)
    (hq : ∀ d, q d = true → d.is_archived ≠ some true)
    (h : docs_to_responses now (find_docs store q skip limit) = .ok items) :
    ∀ r ∈ items, r.is_archived = false := by
  intro r hr
  obtain ⟨d, hd, hofd⟩ := docs_to_responses_ok_mem now _ items h r hr
  have hqd := (find_docs_mem_filter store q skip limit d hd).2
  have har := hq d hqd
  have hfields := ofDoc_fields _ r hofd
  rw [hfields.2.2.2.2.2.2.1, normalize_is_archived]
  rcases hb : d.is_archived with _ | b
  · rfl
  · cases b
    · rfl
    · exact absurd hb har

/-- Archived-inclusion transfer: if the query implies the stored
`is_archived` is `true`, every returned response has `is_archived = true`. -/
theorem listing_archived (now : Int) (store : List RawDoc)
    (q : RawDoc → Bool) (skip limit : Nat) (items : List ClothingItemResponse)
    (hq : ∀ d, q d = true → d.is_archived = some true)
    (h : docs_to_responses now (find_docs store q skip limit) = .ok items) :
    ∀ r ∈ items, r.is_archived = true := by
  intro r hr
  obtain ⟨d, hd, hofd⟩ := docs_to_responses_ok_mem now _ items h r hr
  have hqd := (find_docs_mem_filter store q skip limit d hd).2
  have har := hq d hqd
  have hfields := ofDoc_fields _ r hofd
  rw [hfields.2.2.2.2.2.2.1, normalize_is_archived, har]
  rfl

/-- C7: with the archived flag not set, the default listing, name search,
type filter, needing-cleaning and recently-cleaned queries never return a
record with `is_archived = true`; the archived listing returns only records
with `is_archived = true`. -/
theorem C7_archival_exclusion :
    (∀ store now skip limit items,
      get_all_clothing_items store now skip limit false = .ok items →
      ∀ r ∈ items, r.is_archived = false) ∧
    (∀ store now name skip limit items,
      get_clothing_items_by_name store now name skip limit false = .ok items →
      ∀ r ∈ items, r.is_archived = false) ∧
    (∀ store now item_type skip limit items,
      get_clothing_items_by_type store now item_type skip limit false = .ok items →
      ∀ r ∈ items, r.is_archived = false) ∧
    (∀ store now skip limit items,
      get_items_needing_cleaning store now skip limit false = .ok items →
      ∀ r ∈ items, r.is_archived = false) ∧
    (∀ store now days skip limit items,
      get_items_cleaned_recently store now days skip limit false = .ok items →
      ∀ r ∈ items, r.is_archived = false) ∧
    (∀ store now skip limit items,
      get_archived_clothing_items store now skip limit = .ok items →
      ∀ r ∈ items, r.is_archived = true) := by
  refine ⟨?_, ?_, ?_, ?_, ?_, ?_⟩
  · intro store now skip limit items h
    exact listing_not_archived now store _ skip limit items
      (by intro d hd hc; simp [archFilter, hc] at hd) h
  · intro store now name skip limit items h
    exact listing_not_archived now store _ skip limit items
      (by intro d hd hc; simp [archFilter, hc] at hd) h
  · intro store now item_type skip limit items h
    exact listing_not_archived now store _ skip limit items
      (by intro d hd hc; simp [archFilter, hc] at hd) h
  · intro store now skip limit items h
    exact listing_not_archived now store _ skip limit items
      (by intro d hd hc; simp [archFilter, hc] at hd) h
  · intro store now days skip limit items h
    exact listing_not_archived now store _ skip limit items
      (by intro d hd hc; simp [archFilter, hc] at hd) h
  · intro store now skip limit items h
    exact listing_archived now store _ skip limit items
      (by intro d hd; simpa using hd) h

/-- Witness for C7 on the two-document store `[blueShirt, archivedShirt]`:
each non-archived query returns exactly the Blue T-Shirt (whose response has
`is_archived = false`), and the archived listing returns exactly the Old
Shirt (whose response has `is_archived = true`). -/
theorem C7_archival_exclusion_witness :
    (⟨"aaaaaaaaaaaaaaaaaaaaaaaa", "Blue T-Shirt", "shirt", "", 0, 604800, 604800,
      false⟩ : ClothingItemResponse).is_archived = false ∧
    (⟨"cccccccccccccccccccccccc", "Old Shirt", "shirt", "", 100, 604800, 604900,
      true⟩ : ClothingItemResponse).is_archived = true := by
  constructor
  · exact C7_archival_exclusion.1 [blueShirt, archivedShirt] 0 0 0
      [⟨"aaaaaaaaaaaaaaaaaaaaaaaa", "Blue T-Shirt", "shirt", "", 0, 604800, 604800, false⟩]
      rfl _ (by simp)
  · exact C7_archival_exclusion.2.2.2.2.2 [blueShirt, archivedShirt] 0 0 0
      [⟨"cccccccccccccccccccccccc", "Old Shirt", "shirt", "", 100, 604800, 604900, true⟩]
      rfl _ (by simp)

/-- Counterexample to C5 as stated: the query is `next_cleaning_date <= now`
(inclusive), so the item created at `T = 0` with interval 604800 ALREADY
appears at `now = T + 604800` — one second earlier than `T + 604800 + 1`,
where the claim says it does not appear. -/
theorem C5_needing_cleaning_boundary_cex :
    get_items_needing_cleaning [blueShirt] 604800 0 0 false =
      .ok [⟨"aaaaaaaaaaaaaaaaaaaaaaaa", "Blue T-Shirt", "shirt", "", 0, 604800,
        604800, false⟩] := rfl

/-- C5 (amended): the needing-cleaning listing returns only non-archived
items with `next_cleaning_date <= now`; an item with `next_cleaning_date =
T + 604800` appears when queried at any `now >= T + 604800` — including
exactly `T + 604800`, not only `T + 604800 + 1` — and does not appear at
`now < T + 604800`. -/
theorem C5_needing_cleaning_inclusive_boundary :
    (∀ store now skip limit items,
      get_items_needing_cleaning store now skip limit false = .ok items →
      ∀ r ∈ items, r.is_archived = false ∧ r.next_cleaning_date ≤ now) ∧
    (∀ (d : RawDoc) (nd : Int) (r : ClothingItemResponse) (now : Int),
      d.is_archived ≠ some true → d.next_cleaning_date = some nd →
      ClothingItemResponse.ofDoc (_normalize_document now d) = some r →
      get_items_needing_cleaning [d] now 0 0 false =
        (if nd ≤ now then Except.ok [r] else Except.ok [])) := by
  constructor
  · intro store now skip limit items h r hr
    constructor
    · exact listing_not_archived now store _ skip limit items
        (by intro d hd hc; simp [archFilter, hc] at hd) h r hr
    · obtain ⟨d, hd, hofd⟩ := docs_to_responses_ok_mem now _ items h r hr
      have hq := (find_docs_mem_filter store _ skip limit d hd).2
      have hnext := (Bool.and_eq_true _ _ |>.mp hq).1
      rcases hn : d.next_cleaning_date with _ | t
      · rw [hn] at hnext
        simp [Option.any] at hnext
      · rw [hn] at hnext
        have hle : t ≤ now := by simpa using hnext
        have hfields := ofDoc_fields _ r hofd
        have h1 := normalize_next_of_some now d t hn
        have h2 := hfields.2.2.2.2.2.1
        rw [h1] at h2
        cases h2
        exact hle
  · intro d nd r now har hnd hofd
    have harch : archFilter false d = true := by
      simp [archFilter]
      exact fun hc => absurd hc har
    by_cases hle : nd ≤ now
    · rw [if_pos hle]
      simp [get_items_needing_cleaning, find_docs, hnd, harch, hle,
        docs_to_responses, hofd]
    · rw [if_neg hle]
      simp [get_items_needing_cleaning, find_docs, hnd, harch, hle,
        docs_to_responses]

/-- Witness for the amended C5 on the Blue T-Shirt (`next_cleaning_date =
604800`): present at `now = 604801` and `now = 604800`, absent at `now =
604799`; and the soundness half instantiated at the `now = 604801` result. -/
theorem C5_needing_cleaning_inclusive_boundary_witness :
    (get_items_needing_cleaning [blueShirt] 604801 0 0 false =
      .ok [⟨"aaaaaaaaaaaaaaaaaaaaaaaa", "Blue T-Shirt", "shirt", "", 0, 604800,
        604800, false⟩]) ∧
    (get_items_needing_cleaning [blueShirt] 604799 0 0 false = .ok []) ∧
    ((⟨"aaaaaaaaaaaaaaaaaaaaaaaa", "Blue T-Shirt", "shirt", "", 0, 604800,
        604800, false⟩ : ClothingItemResponse).is_archived = false ∧
      (⟨"aaaaaaaaaaaaaaaaaaaaaaaa", "Blue T-Shirt", "shirt", "", 0, 604800,
        604800, false⟩ : ClothingItemResponse).next_cleaning_date ≤ 604801) := by
  refine ⟨?_, ?_, ?_⟩
  · have h := C5_needing_cleaning_inclusive_boundary.2 blueShirt 604800
      ⟨"aaaaaaaaaaaaaaaaaaaaaaaa", "Blue T-Shirt", "shirt", "", 0, 604800, 604800,
        false⟩ 604801 (by decide) (by decide) (by decide)
    simpa using h
  · have h := C5_needing_cleaning_inclusive_boundary.2 blueShirt 604800
      ⟨"aaaaaaaaaaaaaaaaaaaaaaaa", "Blue T-Shirt", "shirt", "", 0, 604800, 604800,
        false⟩ 604799 (by decide) (by decide) (by decide)
    simpa using h
  · exact C5_needing_cleaning_inclusive_boundary.1 [blueShirt] 604801 0 0
      [⟨"aaaaaaaaaaaaaaaaaaaaaaaa", "Blue T-Shirt", "shirt", "", 0, 604800, 604800,
        false⟩] rfl _ (by simp)

/-- The bulk loop raises (rather than swallowing) when some matched document
lacks `last_cleaned`. -/
theorem bulk_loop_error_of_missing_last (v : Int) (todo : List RawDoc)
    (count : Nat) (s : List RawDoc)
    (h : ∃ d ∈ todo, d.last_cleaned = none) :
    ∃ msg, (bulk_update_loop v todo count s).1 = .error msg := by
  induction todo generalizing count s with
  | nil => simp at h
  | cons doc rest ih =>
    rcases hlc : doc.last_cleaned with _ | lc
    · exact ⟨"Failed to update cleaning interval for type", by
        simp [bulk_update_loop, hlc]⟩
    · obtain ⟨d, hd, hdlc⟩ := h
      rcases List.mem_cons.mp hd with rfl | hmem
      · rw [hlc] at hdlc
        cases hdlc
      · rw [bulk_update_loop, hlc]
        exact ih _ _ ⟨d, hmem, hdlc⟩

/-- Counterexample to C6 as stated: a store failure during `get_clothing_item`
does not propagate — the blanket `except Exception: return None` converts it
into exactly the same not-found outcome (`none`) as a genuinely missing
record, for both the single-item read and the single-item interval update's
initial read. -/
theorem C6_store_failure_converted_to_not_found_cex :
    (get_clothing_item_fallible "aaaaaaaaaaaaaaaaaaaaaaaa"
        (.error "store unreachable") 0 = none) ∧
    (get_clothing_item_fallible "aaaaaaaaaaaaaaaaaaaaaaaa" (.ok none) 0 = none) ∧
    (update_item_fallible_read "aaaaaaaaaaaaaaaaaaaaaaaa"
        (.error "store unreachable") = none) :=
  ⟨rfl, rfl, rfl⟩

/-- C6 (amended): malformed identifiers and missing records yield the
not-found outcome and never a crash; but in EVERY single-item operation —
get, update-interval (its initial read, its write and its re-read), archive
and unarchive — every other store failure is also converted to that same
not-found outcome by the catch-all handlers (nothing propagates); only the
bulk update-by-type propagates a failure (re-raised with a descriptive
message). -/
theorem C6_not_found_and_swallowed_failures :
    (∀ item_id e now, get_clothing_item_fallible item_id (.error e) now = none) ∧
    (∀ item_id fr now, ObjectId.isValid item_id = false →
      get_clothing_item_fallible item_id fr now = none) ∧
    (∀ item_id now, get_clothing_item_fallible item_id (.ok none) now = none) ∧
    (∀ item_id e, update_item_fallible_read item_id (.error e) = none) ∧
    (∀ item_id fr, ObjectId.isValid item_id = false →
      update_item_fallible_read item_id fr = none) ∧
    (∀ item_id cur e rb now,
      update_item_cleaning_interval_fallible_write item_id cur (.error e) rb now
        = none) ∧
    (∀ item_id cur m e now,
      update_item_cleaning_interval_fallible_write item_id cur (.ok m)
        (.error e) now = none) ∧
    (∀ item_id e rb now, archive_clothing_item_fallible item_id (.error e) rb now
      = none) ∧
    (∀ item_id m e now, archive_clothing_item_fallible item_id (.ok m)
      (.error e) now = none) ∧
    (∀ item_id rb now, archive_clothing_item_fallible item_id (.ok 0) rb now
      = none) ∧
    (∀ item_id ur rb now, ObjectId.isValid item_id = false →
      archive_clothing_item_fallible item_id ur rb now = none) ∧
    (∀ item_id e rb now, unarchive_clothing_item_fallible item_id (.error e) rb now
      = none) ∧
    (∀ item_id m e now, unarchive_clothing_item_fallible item_id (.ok m)
      (.error e) now = none) ∧
    (∀ item_id rb now, unarchive_clothing_item_fallible item_id (.ok 0) rb now
      = none) ∧
    (∀ item_id ur rb now, ObjectId.isValid item_id = false →
      unarchive_clothing_item_fallible item_id ur rb now = none) ∧
    (∀ store item_type v,
      (∃ d ∈ store.filter (fun d => d.clothingItemType.any (containsCI item_type ·)),
        d.last_cleaned = none) →
      ∃ msg, (update_type_cleaning_interval store item_type v).1 = .error msg) := by
  refine ⟨?_, ?_, ?_, ?_, ?_, ?_, ?_, ?_, ?_, ?_, ?_, ?_, ?_, ?_, ?_, ?_⟩
  · intro item_id e now
    by_cases h : ObjectId.isValid item_id <;> simp [get_clothing_item_fallible, h]
  · intro item_id fr now h
    simp [get_clothing_item_fallible, h]
  · intro item_id now
    by_cases h : ObjectId.isValid item_id <;> simp [get_clothing_item_fallible, h]
  · intro item_id e
    by_cases h : ObjectId.isValid item_id <;> simp [update_item_fallible_read, h]
  · intro item_id fr h
    simp [update_item_fallible_read, h]
  · intro item_id cur e rb now
    by_cases h : ObjectId.isValid item_id <;>
      rcases hlc : cur.last_cleaned with _ | lc <;>
      simp [update_item_cleaning_interval_fallible_write, h, hlc]
  · intro item_id cur m e now
    by_cases h : ObjectId.isValid item_id <;>
      rcases hlc : cur.last_cleaned with _ | lc <;>
      by_cases hm : m > 0 <;>
      simp [update_item_cleaning_interval_fallible_write, h, hlc, hm]
  · intro item_id e rb now
    by_cases h : ObjectId.isValid item_id <;>
      simp [archive_clothing_item_fallible, h]
  · intro item_id m e now
    by_cases h : ObjectId.isValid item_id <;> by_cases hm : m > 0 <;>
      simp [archive_clothing_item_fallible, h, hm]
  · intro item_id rb now
    by_cases h : ObjectId.isValid item_id <;>
      simp [archive_clothing_item_fallible, h]
  · intro item_id ur rb now h
    simp [archive_clothing_item_fallible, h]
  · intro item_id e rb now
    by_cases h : ObjectId.isValid item_id <;>
      simp [unarchive_clothing_item_fallible, h]
  · intro item_id m e now
    by_cases h : ObjectId.isValid item_id <;> by_cases hm : m > 0 <;>
      simp [unarchive_clothing_item_fallible, h, hm]
  · intro item_id rb now
    by_cases h : ObjectId.isValid item_id <;>
      simp [unarchive_clothing_item_fallible, h]
  · intro item_id ur rb now h
    simp [unarchive_clothing_item_fallible, h]
  · intro store item_type v h
    obtain ⟨msg, hmsg⟩ := bulk_loop_error_of_missing_last v _ 0 store h
    refine ⟨msg, ?_⟩
    rw [update_type_cleaning_interval]
    simp only [hmsg]
    rfl

/-- Witness for the amended C6 at concrete inputs: store failures at every
interaction point of all four single-item operations (the read of `get` and
of update-interval, the write and the re-read of update-interval, archive
and unarchive), a malformed id (`"zz"`), a missing record, a zero-modified
write, and a bulk update over a matching document that lacks
`last_cleaned`. -/
theorem C6_not_found_and_swallowed_failures_witness :
    (get_clothing_item_fallible "aaaaaaaaaaaaaaaaaaaaaaaa" (.error "boom") 5 = none) ∧
    (get_clothing_item_fallible "zz" (.ok (some blueShirt)) 5 = none) ∧
    (get_clothing_item_fallible "aaaaaaaaaaaaaaaaaaaaaaaa" (.ok none) 5 = none) ∧
    (update_item_fallible_read "aaaaaaaaaaaaaaaaaaaaaaaa" (.error "boom") = none) ∧
    (update_item_fallible_read "zz" (.ok (some blueShirt)) = none) ∧
    (update_item_cleaning_interval_fallible_write "aaaaaaaaaaaaaaaaaaaaaaaa"
      blueShirt (.error "boom") (.ok (some blueShirt)) 5 = none) ∧
    (update_item_cleaning_interval_fallible_write "aaaaaaaaaaaaaaaaaaaaaaaa"
      blueShirt (.ok 1) (.error "boom") 5 = none) ∧
    (archive_clothing_item_fallible "aaaaaaaaaaaaaaaaaaaaaaaa" (.error "boom")
      (.ok (some blueShirt)) 5 = none) ∧
    (archive_clothing_item_fallible "aaaaaaaaaaaaaaaaaaaaaaaa" (.ok 1)
      (.error "boom") 5 = none) ∧
    (archive_clothing_item_fallible "aaaaaaaaaaaaaaaaaaaaaaaa" (.ok 0)
      (.ok (some blueShirt)) 5 = none) ∧
    (archive_clothing_item_fallible "zz" (.ok 1) (.ok (some blueShirt)) 5 = none) ∧
    (unarchive_clothing_item_fallible "aaaaaaaaaaaaaaaaaaaaaaaa" (.error "boom")
      (.ok (some blueShirt)) 5 = none) ∧
    (unarchive_clothing_item_fallible "aaaaaaaaaaaaaaaaaaaaaaaa" (.ok 1)
      (.error "boom") 5 = none) ∧
    (unarchive_clothing_item_fallible "aaaaaaaaaaaaaaaaaaaaaaaa" (.ok 0)
      (.ok (some blueShirt)) 5 = none) ∧
    (unarchive_clothing_item_fallible "zz" (.ok 1) (.ok (some blueShirt)) 5 = none) ∧
    (∃ msg, (update_type_cleaning_interval
      [{ _id := "dddddddddddddddddddddddd", clothingItemType := some "shirt" }]
      "shirt" 42).1 = .error msg) := by
  obtain ⟨h1, h2, h3, h4, h5, h6, h7, h8, h9, h10, h11, h12, h13, h14, h15, h16⟩ :=
    C6_not_found_and_swallowed_failures
  refine ⟨h1 "aaaaaaaaaaaaaaaaaaaaaaaa" "boom" 5,
    h2 "zz" (.ok (some blueShirt)) 5 (by decide),
    h3 "aaaaaaaaaaaaaaaaaaaaaaaa" 5,
    h4 "aaaaaaaaaaaaaaaaaaaaaaaa" "boom",
    h5 "zz" (.ok (some blueShirt)) (by decide),
    h6 "aaaaaaaaaaaaaaaaaaaaaaaa" blueShirt "boom" (.ok (some blueShirt)) 5,
    h7 "aaaaaaaaaaaaaaaaaaaaaaaa" blueShirt 1 "boom" 5,
    h8 "aaaaaaaaaaaaaaaaaaaaaaaa" "boom" (.ok (some blueShirt)) 5,
    h9 "aaaaaaaaaaaaaaaaaaaaaaaa" 1 "boom" 5,
    h10 "aaaaaaaaaaaaaaaaaaaaaaaa" (.ok (some blueShirt)) 5,
    h11 "zz" (.ok 1) (.ok (some blueShirt)) 5 (by decide),
    h12 "aaaaaaaaaaaaaaaaaaaaaaaa" "boom" (.ok (some blueShirt)) 5,
    h13 "aaaaaaaaaaaaaaaaaaaaaaaa" 1 "boom" 5,
    h14 "aaaaaaaaaaaaaaaaaaaaaaaa" (.ok (some blueShirt)) 5,
    h15 "zz" (.ok 1) (.ok (some blueShirt)) 5 (by decide),
    h16 [{ _id := "dddddddddddddddddddddddd", clothingItemType := some "shirt" }]
      "shirt" 42
      ⟨{ _id := "dddddddddddddddddddddddd", clothingItemType := some "shirt" },
        List.mem_filter.mpr ⟨by simp, by decide⟩, rfl⟩⟩

/-! ### Bulk update lemmas -/

/-- Master specification of the bulk loop: over matched documents with
pairwise-distinct ids whose current store versions coincide with the cursor
snapshot and which all carry `last_cleaned`, the loop succeeds, adds to the
accumulator exactly the number of documents the `$set` actually changes,
rewrites every matched document to its own recomputation, and leaves every
other id untouched. -/
theorem bulk_loop_spec (v : Int) (todo : List RawDoc) (count0 : Nat)
    (s : List RawDoc)
    (hpw : todo.Pairwise (fun a b => a._id ≠ b._id))
    (hfind : ∀ d ∈ todo, find_one s d._id = some d)
    (hlc : ∀ d ∈ todo, d.last_cleaned.isSome) :
    (bulk_update_loop v todo count0 s).1 =
      .ok (count0 + todo.countP
        (fun d => decide (setInterval v (d.last_cleaned.getD 0 + v) d ≠ d))) ∧
    (∀ d ∈ todo, find_one (bulk_update_loop v todo count0 s).2 d._id =
      some (setInterval v (d.last_cleaned.getD 0 + v) d)) ∧
    (∀ j, (∀ d ∈ todo, d._id ≠ j) →
      find_one (bulk_update_loop v todo count0 s).2 j = find_one s j) := by
  induction todo generalizing count0 s with
  | nil => exact ⟨by simp [bulk_update_loop], by simp, fun j _ => rfl⟩
  | cons doc rest ih =>
    obtain ⟨lc, hlceq⟩ := Option.isSome_iff_exists.mp
      (hlc doc (List.mem_cons_self doc rest))
    have hf0 : find_one s doc._id = some doc := hfind doc (List.mem_cons_self doc rest)
    have hpw1 := List.pairwise_cons.mp hpw
    have hcnt := update_one_count s doc._id (setInterval v (lc + v)) doc hf0
    have hs1find : find_one (update_one s doc._id (setInterval v (lc + v))).1 doc._id =
        some (setInterval v (lc + v) doc) :=
      update_one_find s doc._id _ doc hf0 rfl
    have hs1other : ∀ d ∈ rest,
        find_one (update_one s doc._id (setInterval v (lc + v))).1 d._id = some d := by
      intro d hd
      rw [update_one_find_other s doc._id (setInterval v (lc + v)) (fun x => rfl)
        d._id (Ne.symm (hpw1.1 d hd))]
      exact hfind d (List.mem_cons_of_mem doc hd)
    have hrec := ih (count0 + if (update_one s doc._id (setInterval v (lc + v))).2 > 0
        then 1 else 0)
      (update_one s doc._id (setInterval v (lc + v))).1 hpw1.2 hs1other
      (fun d hd => hlc d (List.mem_cons_of_mem doc hd))
    have hloop : bulk_update_loop v (doc :: rest) count0 s =
        bulk_update_loop v rest
          (count0 + if (update_one s doc._id (setInterval v (lc + v))).2 > 0 then 1 else 0)
          (update_one s doc._id (setInterval v (lc + v))).1 := by
      rw [bulk_update_loop, hlceq]
    refine ⟨?_, ?_, ?_⟩
    · rw [hloop, hrec.1]
      have hif : (if (update_one s doc._id (setInterval v (lc + v))).2 > 0
          then 1 else 0) =
          (if decide (setInterval v (doc.last_cleaned.getD 0 + v) doc ≠ doc) = true
            then 1 else 0) := by
        rw [hcnt, hlceq]
        by_cases hne : setInterval v (lc + v) doc = doc <;> simp [hne]
      rw [List.countP_cons, hif]
      congr 1
      omega
    · intro d hd
      rcases List.mem_cons.mp hd with rfl | hmem
      · rw [hloop, hrec.2.2 d._id (fun d2 hd2 => Ne.symm (hpw1.1 d2 hd2)), hs1find,
          hlceq]
        rfl
      · rw [hloop]
        exact hrec.2.1 d hmem
    · intro j hj
      rw [hloop, hrec.2.2 j (fun d hd => hj d (List.mem_cons_of_mem doc hd)),
        update_one_find_other s doc._id (setInterval v (lc + v)) (fun x => rfl) j
          (Ne.symm (hj doc (List.mem_cons_self doc rest)))]

/-- Full specification of `update_type_cleaning_interval` on a well-formed
store (pairwise-distinct ids; every matched document carries
`last_cleaned`): it succeeds, reports exactly the number of matched
documents whose stored fields actually change, and rewrites every matched
document — archived or not — to its own per-document recomputation. -/
theorem update_type_spec (store : List RawDoc) (item_type : String) (v : Int)
    (hids : store.Pairwise (fun a b => a._id ≠ b._id))
    (hlc : ∀ d ∈ store, d.clothingItemType.any (containsCI item_type ·) = true →
      d.last_cleaned.isSome) :
    (update_type_cleaning_interval store item_type v).1 =
      .ok ((store.filter
          (fun d => d.clothingItemType.any (containsCI item_type ·))).countP
        (fun d => decide (setInterval v (d.last_cleaned.getD 0 + v) d ≠ d)),
        item_type, v) ∧
    (∀ d ∈ store, d.clothingItemType.any (containsCI item_type ·) = true →
      find_one (update_type_cleaning_interval store item_type v).2 d._id =
        some (setInterval v (d.last_cleaned.getD 0 + v) d)) := by
  have hpw : (store.filter
      (fun d => d.clothingItemType.any (containsCI item_type ·))).Pairwise
      (fun a b => a._id ≠ b._id) :=
    hids.sublist (List.filter_sublist store)
  have hfind : ∀ d ∈ store.filter
      (fun d => d.clothingItemType.any (containsCI item_type ·)),
      find_one store d._id = some d :=
    fun d hd => find_one_of_mem store hids d (List.mem_of_mem_filter hd)
  have hlc2 : ∀ d ∈ store.filter
      (fun d => d.clothingItemType.any (containsCI item_type ·)),
      d.last_cleaned.isSome :=
    fun d hd => hlc d (List.mem_filter.mp hd).1 (List.mem_filter.mp hd).2
  have hspec := bulk_loop_spec v _ 0 store hpw hfind hlc2
  constructor
  · rw [update_type_cleaning_interval]
    simp only [hspec.1, Nat.zero_add]
    rfl
  · intro d hd hmatch
    have hdm : d ∈ store.filter
        (fun d => d.clothingItemType.any (containsCI item_type ·)) :=
      List.mem_filter.mpr ⟨hd, hmatch⟩
    rw [update_type_cleaning_interval]
    exact hspec.2.1 d hdm

/-- C4: `update_type_cleaning_interval` applies the per-item recomputation
(`next_cleaning_date := own last_cleaned + new interval`) to every record
whose stored type matches the substring case-insensitively, and its returned
modified-count equals the number of matching records whose stored fields
actually changed — matching records already holding exactly the target
interval and next date are not counted. -/
theorem C4_bulk_update_count_is_changed_records (store : List RawDoc)
    (item_type : String) (v : Int)
    (hids : store.Pairwise (fun a b => a._id ≠ b._id))
    (hlc : ∀ d ∈ store, d.clothingItemType.any (containsCI item_type ·) = true →
      d.last_cleaned.isSome) :
    (update_type_cleaning_interval store item_type v).1 =
      .ok ((store.filter
          (fun d => d.clothingItemType.any (containsCI item_type ·))).countP
        (fun d => decide (setInterval v (d.last_cleaned.getD 0 + v) d ≠ d)),
        item_type, v) ∧
    (∀ d ∈ store, d.clothingItemType.any (containsCI item_type ·) = true →
      find_one (update_type_cleaning_interval store item_type v).2 d._id =
        some (setInterval v (d.last_cleaned.getD 0 + v) d)) :=
  update_type_spec store item_type v hids hlc

/-- Witness for C4: over `[blueShirt, archivedShirt, legacySock]` with type
substring `"SHIRT"`, setting interval 86400 matches the two shirts, changes
both, reports 2, and rewrites the Blue T-Shirt's schedule from its own
`last_cleaned = 0`; re-applying interval 604800 instead reports 0 because
both shirts already hold it (no-op writes are not counted). -/
theorem C4_bulk_update_count_is_changed_records_witness :
    ((update_type_cleaning_interval [blueShirt, archivedShirt, legacySock]
        "SHIRT" 86400).1 = .ok (2, "SHIRT", 86400)) ∧
    (find_one (update_type_cleaning_interval [blueShirt, archivedShirt, legacySock]
        "SHIRT" 86400).2 "aaaaaaaaaaaaaaaaaaaaaaaa" =
      some (setInterval 86400 (blueShirt.last_cleaned.getD 0 + 86400) blueShirt)) ∧
    ((update_type_cleaning_interval [blueShirt, archivedShirt, legacySock]
        "SHIRT" 604800).1 = .ok (0, "SHIRT", 604800)) := by
  refine ⟨?_, ?_, ?_⟩
  · have h := (C4_bulk_update_count_is_changed_records
      [blueShirt, archivedShirt, legacySock] "SHIRT" 86400 (by decide)
      (by decide)).1
    rw [h]
    rfl
  · exact (C4_bulk_update_count_is_changed_records
      [blueShirt, archivedShirt, legacySock] "SHIRT" 86400 (by decide)
      (by decide)).2 blueShirt (by simp) (by decide)
  · have h := (C4_bulk_update_count_is_changed_records
      [blueShirt, archivedShirt, legacySock] "SHIRT" 604800 (by decide)
      (by decide)).1
    rw [h]
    rfl

/-- C10: the bulk type update does not exclude archived items — a record with
`is_archived = true` whose stored type matches the substring
case-insensitively is rewritten to its own recomputation like any other
record, the returned count ranges over ALL matching records (archived
included), and when the archived record actually changes it makes the count
positive. -/
theorem C10_bulk_update_includes_archived (store : List RawDoc)
    (item_type : String) (v : Int) (d : RawDoc)
    (hids : store.Pairwise (fun a b => a._id ≠ b._id))
    (hlc : ∀ d2 ∈ store, d2.clothingItemType.any (containsCI item_type ·) = true →
      d2.last_cleaned.isSome)
    (hd : d ∈ store)
    (hmatch : d.clothingItemType.any (containsCI item_type ·) = true)
    (harch : d.is_archived = some true) :
    find_one (update_type_cleaning_interval store item_type v).2 d._id =
      some (setInterval v (d.last_cleaned.getD 0 + v) d) ∧
    (update_type_cleaning_interval store item_type v).1 =
      .ok ((store.filter
          (fun d2 => d2.clothingItemType.any (containsCI item_type ·))).countP
        (fun d2 => decide (setInterval v (d2.last_cleaned.getD 0 + v) d2 ≠ d2)),
        item_type, v) ∧
    (setInterval v (d.last_cleaned.getD 0 + v) d ≠ d →
      0 < (store.filter
          (fun d2 => d2.clothingItemType.any (containsCI item_type ·))).countP
        (fun d2 => decide (setInterval v (d2.last_cleaned.getD 0 + v) d2 ≠ d2))) := by
  have hspec := update_type_spec store item_type v hids hlc
  refine ⟨hspec.2 d hd hmatch, hspec.1, ?_⟩
  intro hne
  exact List.countP_pos_iff.mpr ⟨d, List.mem_filter.mpr ⟨hd, hmatch⟩, decide_eq_true hne⟩

/-- Witness for C10: in `[blueShirt, archivedShirt, legacySock]` the ARCHIVED
shirt is matched by `"shirt"`, rewritten from its own `last_cleaned = 100`,
counted (count 2 covers both shirts), and its change makes the count
positive. -/
theorem C10_bulk_update_includes_archived_witness :
    (find_one (update_type_cleaning_interval [blueShirt, archivedShirt, legacySock]
        "shirt" 86400).2 "cccccccccccccccccccccccc" =
      some (setInterval 86400 (archivedShirt.last_cleaned.getD 0 + 86400)
        archivedShirt)) ∧
    ((update_type_cleaning_interval [blueShirt, archivedShirt, legacySock]
        "shirt" 86400).1 = .ok (2, "shirt", 86400)) ∧
    (0 < ([blueShirt, archivedShirt, legacySock].filter
        (fun d2 => d2.clothingItemType.any (containsCI "shirt" ·))).countP
      (fun d2 => decide (setInterval 86400 (d2.last_cleaned.getD 0 + 86400) d2 ≠ d2))) := by
  have h := C10_bulk_update_includes_archived [blueShirt, archivedShirt, legacySock]
    "shirt" 86400 archivedShirt (by decide) (by decide) (by simp) (by decide)
    (by decide)
  refine ⟨h.1, ?_, h.2.2 (by decide)⟩
  rw [h.2.1]
  rfl
